import Mathlib

/-!
Verification of the Qt gRPC HTTP/2 channel against its specification.

This file embeds, as executable Lean definitions, the message framing and
reassembly logic, the per-RPC handler state machine, the channel handler
registry, the content-type negotiation in the channel constructor, the
HTTP/2-error-to-status mapping (all from `qgrpchttp2channel.cpp`) and the
finished-signal guard of `QGrpcOperation` (from `qgrpcoperation.cpp`), and
proves or refutes the specified properties about them.

Byte strings (`QByteArray` / `QByteArrayView`) are modelled as `List Nat`
with each element a byte value; sizes are `Nat` (the C++ `qsizetype` is a
64-bit signed type holding only non-negative sizes here).  External
collaborators (the HTTP/2 stream, the socket) appear only through the
state the channel code reads from them (stream state, upload flag) and
through oracles for the results of frame sends.
-/

namespace QtGrpcHttp2

/-! ## Byte-level helpers and gRPC message framing -/

/-- Size of the gRPC length-prefix: one compression-flag byte plus a 4-byte
big-endian length (`GrpcMessageSizeHeaderSize` in `qgrpchttp2channel.cpp`). -/
def GrpcMessageSizeHeaderSize : Nat := 5

/-- Big-endian byte decomposition of a 32-bit value, most significant byte
first, as written by `qToBigEndian<quint32>`. -/
def toBigEndian32 (n : Nat) : List Nat :=
  [n / 16777216 % 256, n / 65536 % 256, n / 256 % 256, n % 256]

/-- Big-endian recomposition of four bytes, as read by
`qFromBigEndian<quint32>`. -/
def fromBigEndian32 (b1 b2 b3 b4 : Nat) : Nat :=
  ((b1 * 256 + b2) * 256 + b3) * 256 + b4

/-- The framed message built by `Http2Handler::writeMessage`
(`qgrpchttp2channel.cpp:547-555`): a byte string of size
`GrpcMessageSizeHeaderSize + data.size()` initialised to zero, with the
payload size written big-endian at offset 1 (after
`static_cast<quint32>(data.size())`, hence the `% 2 ^ 32`) and the payload
copied in at offset 5.  Byte 0 keeps its zero initialisation (the
compression flag). -/
def frame (data : List Nat) : List Nat :=
  0 :: (toBigEndian32 (data.length % 2 ^ 32) ++ data)

/-! ## ExpectedData reassembler (`qgrpchttp2channel.cpp:215-230`) -/

/-- The per-handler reassembly state: `expectedSize` is 0 until a full
5-byte length prefix is buffered, `container` accumulates raw bytes. -/
structure ExpectedData where
  expectedSize : Nat
  container : List Nat
deriving DecidableEq, Repr

/-- `ExpectedData::updateExpectedSize`: when `expectedSize == 0`, fail if
fewer than 5 bytes are buffered, otherwise set `expectedSize` to the
big-endian `quint32` at bytes 1..4 plus the 5-byte prefix size.  Returns
the C++ bool result together with the updated state. -/
def ExpectedData.updateExpectedSize (e : ExpectedData) : Bool × ExpectedData :=
  if e.expectedSize = 0 then
    if e.container.length < GrpcMessageSizeHeaderSize then
      (false, e)
    else
      (true,
        { e with
          expectedSize :=
            fromBigEndian32 (e.container.getD 1 0) (e.container.getD 2 0)
              (e.container.getD 3 0) (e.container.getD 4 0)
              + GrpcMessageSizeHeaderSize })
  else (true, e)

/-- The `while (container.size() >= expectedSize)` loop of the
`dataReceived` lambda (`qgrpchttp2channel.cpp:455-469`): each iteration
emits the payload slice `container.mid(5, expectedSize - 5)`, removes the
consumed `expectedSize` bytes, resets `expectedSize` and recomputes it.
Returns the emitted messages, the final reassembly state and whether the
loop exited through its condition (`true`) rather than through the early
`return` taken when `updateExpectedSize` fails (`false`) — only a normal
exit reaches the end-of-stream handling that follows the loop.  `fuel`
bounds the recursion; every iteration consumes at least the 5-byte prefix,
so `container.length + 1` iterations always suffice. -/
def drainLoop : Nat → ExpectedData → List (List Nat) × ExpectedData × Bool
  | 0, e => ([], e, false)
  | fuel + 1, e =>
    if e.expectedSize ≤ e.container.length then
      let msg := (e.container.drop GrpcMessageSizeHeaderSize).take
        (e.expectedSize - GrpcMessageSizeHeaderSize)
      let e1 : ExpectedData := ⟨0, e.container.drop e.expectedSize⟩
      match e1.updateExpectedSize with
      | (false, e2) => ([msg], e2, false)
      | (true, e2) =>
        let r := drainLoop fuel e2
        (msg :: r.1, r.2.1, r.2.2)
    else ([], e, true)

/-- One delivery of a data chunk to the reassembler: append the chunk to
the container (`container.append(data)`), return early if
`updateExpectedSize` fails, then run the drain loop
(`qgrpchttp2channel.cpp:450-469`). -/
def receiveChunk (e : ExpectedData) (data : List Nat) :
    List (List Nat) × ExpectedData × Bool :=
  let e1 : ExpectedData := { e with container := e.container ++ data }
  match e1.updateExpectedSize with
  | (false, e2) => ([], e2, false)
  | (true, e2) => drainLoop (e2.container.length + 1) e2

/-! ## gRPC status codes and handler events -/

/-- The `QtGrpc::StatusCode` values used by the channel
(`qgrpcstatus.h`, restricted to the codes the channel produces). -/
inductive StatusCode
  | Ok
  | Cancelled
  | Unknown
  | Unavailable
  | Internal
  | ResourceExhausted
  | PermissionDenied
  | DeadlineExceeded
deriving DecidableEq, Repr

/-- Signals the handler emits towards its `QGrpcOperationContext`. -/
inductive Event
  | messageReceived (msg : List Nat)
  | finished (status : StatusCode)
deriving DecidableEq, Repr

/-- HTTP/2 frames the handler asks the stream to send. -/
inductive Frame
  | data (payload : List Nat) (endStream : Bool)
  | rstStream (errorCode : Nat)
deriving DecidableEq, Repr

/-! ## HTTP/2 error codes (RFC 7540 section 7, mirrored by
`Http2::Http2Error` — the source comment at `qgrpchttp2channel.cpp:168-172`
states the mapping is kept in sync with that RFC). -/

def HTTP2_NO_ERROR : Nat := 0x0
def PROTOCOL_ERROR : Nat := 0x1
def INTERNAL_ERROR : Nat := 0x2
def FLOW_CONTROL_ERROR : Nat := 0x3
def SETTINGS_TIMEOUT : Nat := 0x4
def STREAM_CLOSED : Nat := 0x5
def FRAME_SIZE_ERROR : Nat := 0x6
def REFUSE_STREAM : Nat := 0x7
def CANCEL : Nat := 0x8
def COMPRESSION_ERROR : Nat := 0x9
def CONNECT_ERROR : Nat := 0xa
def ENHANCE_YOUR_CALM : Nat := 0xb
def INADEQUATE_SECURITY : Nat := 0xc
def HTTP_1_1_REQUIRED : Nat := 0xd

/-- `http2ErrorToStatusCode` (`qgrpchttp2channel.cpp:173-201`): the switch
over HTTP/2 error codes, with the fall-through groups of the original
`case` labels and the `Internal` default. -/
def http2ErrorToStatusCode (e : Nat) : StatusCode :=
  if e = HTTP2_NO_ERROR ∨ e = PROTOCOL_ERROR ∨ e = INTERNAL_ERROR
      ∨ e = FLOW_CONTROL_ERROR ∨ e = SETTINGS_TIMEOUT ∨ e = STREAM_CLOSED
      ∨ e = FRAME_SIZE_ERROR then
    StatusCode.Internal
  else if e = REFUSE_STREAM then StatusCode.Unavailable
  else if e = CANCEL then StatusCode.Cancelled
  else if e = COMPRESSION_ERROR ∨ e = CONNECT_ERROR then StatusCode.Internal
  else if e = ENHANCE_YOUR_CALM then StatusCode.ResourceExhausted
  else if e = INADEQUATE_SECURITY then StatusCode.PermissionDenied
  else if e = HTTP_1_1_REQUIRED then StatusCode.Unknown
  else StatusCode.Internal

/-- The stream `errorOccurred` lambda (`qgrpchttp2channel.cpp:434-445`):
if the operation has not expired, emit `finished` with the mapped status;
the handler is then deregistered (channel side, modelled separately). -/
def streamErrorOccurred (expired : Bool) (errorCode : Nat) : List Event :=
  if expired then [] else [Event.finished (http2ErrorToStatusCode errorCode)]

/-! ## The Http2Handler state machine -/

/-- `Http2Handler::State` (`qgrpchttp2channel.cpp:239`). -/
inductive HandlerState
  | Active
  | Cancelled
  | Finished
deriving DecidableEq, Repr

/-- `QHttp2Stream::State`, as far as the handler inspects it. -/
inductive StreamState
  | Idle
  | Open
  | HalfClosedLocal
  | HalfClosedRemote
  | Closed
deriving DecidableEq, Repr

/-- The attached `QHttp2Stream`, reduced to the state the handler reads:
its protocol state and whether a DATA upload is in flight
(`isUploadingDATA`). -/
structure Http2Stream where
  state : StreamState
  uploadingDATA : Bool
deriving DecidableEq, Repr

/-- The `Http2Handler` fields the verified operations touch: handler
state, the (possibly unattached) stream, the outbound message queue, the
reassembly buffer, the deadline timer's running flag and the
`m_endStreamAtFirstData` construction flag. -/
structure Http2Handler where
  handlerState : HandlerState
  stream : Option Http2Stream
  queue : List (List Nat)
  expectedData : ExpectedData
  deadlineTimerActive : Bool
  endStreamAtFirstData : Bool
deriving DecidableEq, Repr

/-- `Http2Handler::isStreamClosedForSending` (`qgrpchttp2channel.cpp:252-259`):
false while no stream is attached (messages are collected in the queue),
true when the attached stream is `HalfClosedLocal` or `Closed`. -/
def Http2Handler.isStreamClosedForSending (h : Http2Handler) : Bool :=
  match h.stream with
  | none => false
  | some s => s.state == StreamState.HalfClosedLocal || s.state == StreamState.Closed

/-- `Http2Handler::processQueue` (`qgrpchttp2channel.cpp:583-604`): do
nothing without a stream, while a DATA upload is in flight, or with an
empty queue; otherwise dequeue one message and send it as a DATA frame,
with the end-of-stream flag set when the byte device is immediately
exhausted (empty payload) or the handler ends the stream at its first
message.  `sendDATA` starts an upload, so the stream becomes uploading. -/
def Http2Handler.processQueue (h : Http2Handler) : Http2Handler × List Frame :=
  match h.stream with
  | none => (h, [])
  | some s =>
    if s.uploadingDATA then (h, [])
    else
      match h.queue with
      | [] => (h, [])
      | msg :: rest =>
        ({ h with
            queue := rest,
            stream := some { s with uploadingDATA := true } },
          [Frame.data msg (msg.isEmpty || h.endStreamAtFirstData)])

/-- `Http2Handler::writeMessage` (`qgrpchttp2channel.cpp:540-559`): refuse
silently unless Active with a send-open stream; otherwise enqueue the
framed payload and drain the queue. -/
def Http2Handler.writeMessage (h : Http2Handler) (data : List Nat) :
    Http2Handler × List Frame :=
  if h.handlerState ≠ HandlerState.Active ∨ h.isStreamClosedForSending then
    (h, [])
  else
    Http2Handler.processQueue { h with queue := h.queue ++ [frame data] }

/-- `Http2Handler::cancel` (`qgrpchttp2channel.cpp:606-617`): fail without
any effect unless Active with an attached stream; otherwise transition to
Cancelled, stop the deadline timer and send `RST_STREAM(CANCEL)`.  The
oracle `rstSendOk` is the result of `QHttp2Stream::sendRST_STREAM`, which
`cancel` returns. -/
def Http2Handler.cancel (h : Http2Handler) (rstSendOk : Bool) :
    Bool × Http2Handler × List Frame :=
  if h.handlerState ≠ HandlerState.Active ∨ h.stream = none then
    (false, h, [])
  else
    (rstSendOk,
      { h with
        handlerState := HandlerState.Cancelled,
        deadlineTimerActive := false },
      [Frame.rstStream CANCEL])

/-- `Http2Handler::writesDone` (`qgrpchttp2channel.cpp:619-632`): no-op
unless Active; transition to Finished, and unless the send side is already
(half-)closed enqueue one empty message (`m_queue.enqueue({})`) and drain
the queue. -/
def Http2Handler.writesDone (h : Http2Handler) : Http2Handler × List Frame :=
  if h.handlerState ≠ HandlerState.Active then (h, [])
  else
    let h1 := { h with handlerState := HandlerState.Finished }
    if h1.isStreamClosedForSending then (h1, [])
    else Http2Handler.processQueue { h1 with queue := h1.queue ++ [[]] }

/-- The stream `dataReceived` lambda (`qgrpchttp2channel.cpp:447-476`):
ignored entirely once Cancelled; otherwise run the reassembler on the
chunk, and — only when the drain loop exited through its condition — if the
frame carried end-of-stream, become Finished and emit `finished` with the
default (OK) status. -/
def Http2Handler.dataReceived (h : Http2Handler) (data : List Nat)
    (endStream : Bool) : Http2Handler × List Event :=
  if h.handlerState = HandlerState.Cancelled then (h, [])
  else
    let r := receiveChunk h.expectedData data
    let events := r.1.map Event.messageReceived
    if r.2.2 && endStream then
      ({ h with handlerState := HandlerState.Finished, expectedData := r.2.1 },
        events ++ [Event.finished StatusCode.Ok])
    else
      ({ h with expectedData := r.2.1 }, events)

/-- `Http2Handler::deadlineTimeout` (`qgrpchttp2channel.cpp:634-650`): if
the operation expired, only log; otherwise attempt `cancel()` and report
`finished(DeadlineExceeded)` exactly when it returns success — a failed
cancellation only logs a warning. -/
def Http2Handler.deadlineTimeout (h : Http2Handler) (expired : Bool)
    (rstSendOk : Bool) : Http2Handler × List Frame × List Event :=
  if expired then (h, [], [])
  else
    let r := h.cancel rstSendOk
    if r.1 then
      (r.2.1, r.2.2, [Event.finished StatusCode.DeadlineExceeded])
    else (r.2.1, r.2.2, [])

/-! ## Deadline resolution at stream attach (`qgrpchttp2channel.cpp:481-490`) -/

/-- Deadline resolution: the call-level deadline if set, else the
channel-level deadline if set, else none.  A set deadline of any value
(including zero) counts, matching `std::optional` truthiness. -/
def resolveDeadline (callDeadline channelDeadline : Option Nat) : Option Nat :=
  if callDeadline.isSome then callDeadline
  else if channelDeadline.isSome then channelDeadline
  else none

/-- `if (deadline) m_deadlineTimer.start(*deadline)`: the timer is armed
exactly when a deadline resolved. -/
def deadlineTimerStarted (callDeadline channelDeadline : Option Nat) : Bool :=
  (resolveDeadline callDeadline channelDeadline).isSome

/-! ## Initial request headers (`Http2Handler::prepareInitialRequest`,
`qgrpchttp2channel.cpp:502-536`) -/

/-- Byte string of an ASCII string literal (`QByteArray` contents). -/
def bytes (s : String) : List Nat := s.data.map Char.toNat

/-- ASCII lower-casing of one byte, as `QByteArray::toLower` does per
byte. -/
def asciiLowerByte (b : Nat) : Nat :=
  if 65 ≤ b ∧ b ≤ 90 then b + 32 else b

/-- `QByteArray::toLower` over a byte string. -/
def asciiLower (l : List Nat) : List Nat := l.map asciiLowerByte

/-- The metadata iteration of `prepareInitialRequest`
(`qgrpchttp2channel.cpp:521-530`): each key is lower-cased; keys equal to a
pseudo-header or `content-type` are skipped; surviving pairs are appended
in iteration order. -/
def metaEntries (metadata : List (List Nat × List Nat)) :
    List (List Nat × List Nat) :=
  metadata.filterMap fun kv =>
    let lowerKey := asciiLower kv.1
    if lowerKey = bytes ":authority" ∨ lowerKey = bytes ":method"
        ∨ lowerKey = bytes ":path" ∨ lowerKey = bytes ":scheme"
        ∨ lowerKey = bytes "content-type" then
      none
    else
      some (lowerKey, kv.2)

/-- The full initial header list of `prepareInitialRequest`: the fixedic
base headers, then the channel metadata entries, then the call metadata
entries. -/
def initialHeaders (authority scheme contentType service method : List Nat)
    (channelMeta callMeta : List (List Nat × List Nat)) :
    List (List Nat × List Nat) :=
  [(bytes ":authority", authority),
    (bytes ":method", bytes "POST"),
    (bytes ":path", bytes "/" ++ service ++ bytes "/" ++ method),
    (bytes ":scheme", scheme),
    (bytes "content-type", contentType),
    (bytes "service-name", service),
    (bytes "grpc-accept-encoding", bytes "identity,deflate,gzip"),
    (bytes "accept-encoding", bytes "identity,gzip"),
    (bytes "te", bytes "trailers")]
  ++ metaEntries channelMeta ++ metaEntries callMeta

/-- Last occurrence of a header key in a header list (the value a
last-wins reader of the merged headers observes). -/
def lookupLast (headers : List (List Nat × List Nat)) (key : List Nat) :
    Option (List Nat) :=
  (headers.reverse.find? fun p => p.1 == key).map fun p => p.2

/-! ## Content-type negotiation in the channel constructor
(`QGrpcHttp2ChannelPrivate::QGrpcHttp2ChannelPrivate`,
`qgrpchttp2channel.cpp:656-703`) -/

/-- Modelled from the spec: `QGrpcSerializationFormat` presets (the class
itself is not part of the sources here).  The default format has an empty
suffix, the Protobuf preset the suffix `proto`, the JSON preset the suffix
`json`; formats are distinguished by suffix. -/
inductive SerializationFormat
  | Default
  | Protobuf
  | Json
deriving DecidableEq, Repr

/-- Wire suffix of each serialization format preset. -/
def SerializationFormat.suffix : SerializationFormat → String
  | .Default => ""
  | .Protobuf => "proto"
  | .Json => "json"

/-- Default gRPC content type (`DefaultContentType`,
`qgrpchttp2channel.cpp:166`). -/
def DefaultContentType : String := "application/grpc"

/-- The outcome of the constructor's content-type resolution: the resolved
serialization format, the resolved `m_contentType`, whether the
format-conflict warning fired and whether the cannot-choose-serializer
warning fired. -/
structure ChannelInit where
  format : SerializationFormat
  contentType : String
  warnFormatConflict : Bool
  warnUnknownContentType : Bool
deriving DecidableEq, Repr

/-- The content-type negotiation logic of the channel constructor.
`metaContentType` is the channel metadata's `content-type` value when the
exact key is present.  Follows `qgrpchttp2channel.cpp:659-703`: compute
the content type implied by the configured format; when the metadata also
sets `content-type`, either infer a format from it (only when no format
suffix was configured and the value is not the plain default), or flag a
conflict when it disagrees with the configured format; finally resolve
`m_contentType` from the (possibly updated) format. -/
def channelContentTypeInit (optFormat : SerializationFormat)
    (metaContentType : Option String) : ChannelInit :=
  let formatSuffix := optFormat.suffix
  let contentTypeFromOptions :=
    if formatSuffix = "" then DefaultContentType
    else DefaultContentType ++ "+" ++ formatSuffix
  let warnInit : Bool := decide (formatSuffix ≠ "")
  let step : SerializationFormat × Bool × Bool :=
    match metaContentType with
    | some value =>
      if formatSuffix = "" ∧ value ≠ DefaultContentType then
        if value = "application/grpc+json" then
          (SerializationFormat.Json, warnInit, false)
        else if value = "application/grpc+proto" ∨ value = DefaultContentType then
          (SerializationFormat.Protobuf, warnInit, false)
        else
          (SerializationFormat.Default, warnInit, true)
      else if value ≠ contentTypeFromOptions then (optFormat, true, false)
      else (optFormat, false, false)
    | none => (optFormat, false, false)
  let format := step.1
  let contentType :=
    if formatSuffix = format.suffix then contentTypeFromOptions
    else if format.suffix = "" then DefaultContentType
    else DefaultContentType ++ "+" ++ format.suffix
  { format := format, contentType := contentType,
    warnFormatConflict := step.2.1, warnUnknownContentType := step.2.2 }

/-! ## The channel handler registry
(`QGrpcHttp2ChannelPrivate`, `qgrpchttp2channel.cpp:799-924`).
Handlers are identified by numbers; `deleted` records the handlers on
which `delete` / `deleteLater` has been called. -/

/-- `QGrpcHttp2ChannelPrivate::ConnectionState`. -/
inductive ConnState
  | Connecting
  | Connected
  | Error
deriving DecidableEq, Repr

/-- The channel's handler registry and connection state. -/
structure ChannelState where
  connectionExists : Bool
  connState : ConnState
  pending : List Nat
  active : List Nat
  deleted : List Nat
deriving DecidableEq, Repr

/-- `processOperation` (`qgrpchttp2channel.cpp:799-844`), reduced to its
registry effect: the new handler goes to the pending list when no HTTP/2
connection exists, otherwise its initial request is sent and it goes to
the active list; an `Error` connection state triggers a reconnect and
becomes `Connecting`. -/
def ChannelState.processOperation (st : ChannelState) (newHandler : Nat) :
    ChannelState :=
  let st1 :=
    if st.connectionExists then { st with active := st.active ++ [newHandler] }
    else { st with pending := st.pending ++ [newHandler] }
  if st1.connState = ConnState.Error then
    { st1 with connState := ConnState.Connecting }
  else st1

/-- `createHttp2Connection` (`qgrpchttp2channel.cpp:846-879`): mark the
connection established, `delete` every pending handler whose operation
expired (the loop body `delete handler; continue` — the loop does not
remove the pointer from `m_pendingHandlers`), send the initial request of
the others, then `m_activeHandlers.append(m_pendingHandlers)` — the whole
pending list, deleted pointers included — and clear the pending list. -/
def ChannelState.createHttp2Connection (st : ChannelState)
    (expired : Nat → Bool) : ChannelState :=
  { st with
    connectionExists := true,
    connState := ConnState.Connected,
    deleted := st.deleted ++ st.pending.filter fun h => expired h,
    active := st.active ++ st.pending,
    pending := [] }

/-- `handleSocketError` (`qgrpchttp2channel.cpp:881-890`): delete every
active and pending handler, drop the connection, enter the `Error`
state. -/
def ChannelState.handleSocketError (st : ChannelState) : ChannelState :=
  { st with
    deleted := st.deleted ++ st.active ++ st.pending,
    active := [],
    pending := [],
    connectionExists := false,
    connState := ConnState.Error }

/-- `deleteHandler` (`qgrpchttp2channel.cpp:917-924`): only a handler
found in the active list is scheduled for deletion and removed from it. -/
def ChannelState.deleteHandler (st : ChannelState) (h : Nat) : ChannelState :=
  if h ∈ st.active then
    { st with active := st.active.erase h, deleted := st.deleted ++ [h] }
  else st

/-! ## The QGrpcOperation finished guard (`qgrpcoperation.cpp:89-98`) -/

/-- The user-facing operation object, reduced to its `isFinished` atomic
flag. -/
structure GrpcOperation where
  isFinished : Bool
deriving DecidableEq, Repr

/-- Delivery of one `QGrpcOperationContext::finished` signal to the
operation: when not yet finished, set the flag and re-emit the status as
the user-visible `QGrpcOperation::finished`; otherwise emit nothing. -/
def GrpcOperation.onContextFinished (op : GrpcOperation) (status : StatusCode) :
    GrpcOperation × List StatusCode :=
  if op.isFinished then (op, [])
  else ({ isFinished := true }, [status])

/-- Delivery of a whole sequence of context `finished` signals, collecting
every user-visible emission in order. -/
def GrpcOperation.deliverAll (op : GrpcOperation) :
    List StatusCode → GrpcOperation × List StatusCode
  | [] => (op, [])
  | s :: rest =>
    let r := op.onContextFinished s
    let r2 := r.1.deliverAll rest
    (r2.1, r.2 ++ r2.2)

/-! ## Concrete data for witnesses and counterexamples -/

/-- A stream in the `Open` state with no upload in flight. -/
def streamOpen : Http2Stream := { state := StreamState.Open, uploadingDATA := false }

/-- An Active handler attached to an open stream, empty queue and buffer,
running deadline timer, streaming mode (no end-stream at first DATA). -/
def handlerActive : Http2Handler :=
  { handlerState := HandlerState.Active, stream := some streamOpen,
    queue := [], expectedData := ⟨0, []⟩, deadlineTimerActive := true,
    endStreamAtFirstData := false }

/-- An Active handler with no attached stream yet and an empty reassembly
buffer. -/
def freshHandler : Http2Handler :=
  { handlerState := HandlerState.Active, stream := none,
    queue := [], expectedData := ⟨0, []⟩, deadlineTimerActive := false,
    endStreamAtFirstData := false }

/-- An Active handler with an open stream and one queued unsent message. -/
def handlerBacklog : Http2Handler :=
  { handlerState := HandlerState.Active, stream := some streamOpen,
    queue := [[1]], expectedData := ⟨0, []⟩, deadlineTimerActive := false,
    endStreamAtFirstData := false }

/-- A payload of 2 ^ 32 bytes — one more than the 4-byte length field can
represent. -/
def hugePayload : List Nat := List.replicate (2 ^ 32) 1

/-- Channel metadata for the C4 witness: `x: 1` plus a `content-type` the
merge must skip. -/
def c4ChannelMeta : List (List Nat × List Nat) :=
  [(bytes "x", bytes "1"), (bytes "content-type", bytes "foo")]

/-- Call metadata for the C4 witness: `x: 2`. -/
def c4CallMeta : List (List Nat × List Nat) := [(bytes "x", bytes "2")]


/-! ## Helper lemmas about the reassembler -/

/-- Recomposing the four big-endian digits of a value yields the value
modulo 2 ^ 32. -/
theorem fromBigEndian32_digits (n : Nat) :
    fromBigEndian32 (n / 16777216 % 256) (n / 65536 % 256) (n / 256 % 256)
      (n % 256) = n % 4294967296 := by
  unfold fromBigEndian32
  omega

/-- `updateExpectedSize` on a zero-`expectedSize` buffer of at least five
bytes succeeds and reads bytes 1..4 big-endian. -/
theorem updateExpectedSize_cons (x0 x1 x2 x3 x4 : Nat) (t : List Nat) :
    (ExpectedData.mk 0 (x0 :: x1 :: x2 :: x3 :: x4 :: t)).updateExpectedSize
      = (true, ⟨fromBigEndian32 x1 x2 x3 x4 + 5, x0 :: x1 :: x2 :: x3 :: x4 :: t⟩) := by
  unfold ExpectedData.updateExpectedSize
  simp [GrpcMessageSizeHeaderSize, List.getD]

/-- A framed message is the zero flag byte, the four big-endian digits of
the (truncated) payload length, then the payload. -/
theorem frame_cons (P : List Nat) :
    frame P = 0 :: P.length % 2 ^ 32 / 16777216 % 256
      :: P.length % 2 ^ 32 / 65536 % 256 :: P.length % 2 ^ 32 / 256 % 256
      :: P.length % 2 ^ 32 % 256 :: P := by
  simp [frame, toBigEndian32]

/-- `updateExpectedSize` on a buffer that starts with a framed message
succeeds and computes the truncated payload length plus five. -/
theorem updateExpectedSize_frame_append (P rest : List Nat) :
    (ExpectedData.mk 0 (frame P ++ rest)).updateExpectedSize
      = (true, ⟨P.length % 2 ^ 32 + 5, frame P ++ rest⟩) := by
  have h32 : (2 : Nat) ^ 32 = 4294967296 := by norm_num
  have hsh : frame P ++ rest
      = 0 :: P.length % 2 ^ 32 / 16777216 % 256
        :: P.length % 2 ^ 32 / 65536 % 256 :: P.length % 2 ^ 32 / 256 % 256
        :: P.length % 2 ^ 32 % 256 :: (P ++ rest) := by
    rw [frame_cons]
    simp
  have hfb : fromBigEndian32 (P.length % 2 ^ 32 / 16777216 % 256)
      (P.length % 2 ^ 32 / 65536 % 256) (P.length % 2 ^ 32 / 256 % 256)
      (P.length % 2 ^ 32 % 256) = P.length % 2 ^ 32 := by
    rw [fromBigEndian32_digits]
    omega
  rw [hsh, updateExpectedSize_cons, hfb]

/-- Length of a framed message. -/
theorem frame_length (P : List Nat) : (frame P).length = P.length + 5 := by
  rw [frame_cons]
  simp

/-- One iteration of the drain loop on a buffer that starts with a framed
message of in-range size: emit the payload, drop the frame, and either
stop (fewer than five bytes remain) or recurse after recomputing the
expected size. -/
theorem drainLoop_frame (f : Nat) (P rest : List Nat) :
    drainLoop (f + 1) ⟨P.length + 5, frame P ++ rest⟩
      = (if rest.length < 5 then
          ([P], ⟨0, rest⟩, false)
        else
          (P :: (drainLoop f ((ExpectedData.mk 0 rest).updateExpectedSize.2)).1,
            (drainLoop f ((ExpectedData.mk 0 rest).updateExpectedSize.2)).2)) := by
  have hguard : P.length + 5 ≤ (frame P ++ rest).length := by
    simp [frame_length]
  have hdrop5 : (frame P ++ rest).drop 5 = P ++ rest := by
    rw [frame_cons]
    simp
  have hdropAll : (frame P ++ rest).drop (P.length + 5) = rest := by
    rw [show P.length + 5 = (frame P).length from (frame_length P).symm,
      List.drop_left]
  have htake : (P ++ rest).take (P.length + 5 - 5) = P := by
    simp [List.take_left]
  simp only [drainLoop, GrpcMessageSizeHeaderSize]
  rw [if_pos hguard, hdrop5, htake, hdropAll]
  by_cases hr : rest.length < 5
  · have hu : (ExpectedData.mk 0 rest).updateExpectedSize = (false, ⟨0, rest⟩) := by
      unfold ExpectedData.updateExpectedSize
      simp [GrpcMessageSizeHeaderSize, hr]
    rw [hu, if_pos hr]
  · have hu : (ExpectedData.mk 0 rest).updateExpectedSize
        = (true, ⟨fromBigEndian32 (rest.getD 1 0) (rest.getD 2 0) (rest.getD 3 0)
            (rest.getD 4 0) + 5, rest⟩) := by
      unfold ExpectedData.updateExpectedSize
      simp [GrpcMessageSizeHeaderSize, hr]
    rw [hu, if_neg hr]

/-! ## C1 — framing round-trip -/

/-- C1: for every byte payload `P` whose length fits the 4-byte length
field (`P.length < 2 ^ 32` — the amendment the `static_cast<quint32>`
truncation in `writeMessage` forces), `writeMessage` frames `P` as one
zero byte, the 4-byte big-endian length of `P`, then `P`; feeding that
framed byte string to a fresh reassembler computes
`expectedSize = P.length + 5` and emits exactly `P`, leaving an empty
buffer. -/
theorem framing_roundtrip (P : List Nat) (hP : P.length < 2 ^ 32) :
    frame P = 0 :: (toBigEndian32 P.length ++ P) ∧
    (ExpectedData.mk 0 (frame P)).updateExpectedSize
      = (true, ⟨P.length + 5, frame P⟩) ∧
    receiveChunk ⟨0, []⟩ (frame P) = ([P], ⟨0, []⟩, false) := by
  have hmod : P.length % 2 ^ 32 = P.length := Nat.mod_eq_of_lt hP
  have h32 : (2 : Nat) ^ 32 = 4294967296 := by norm_num
  have hmodn : P.length % 4294967296 = P.length := by rw [← h32]; exact hmod
  have hupd : (ExpectedData.mk 0 (frame P)).updateExpectedSize
      = (true, ⟨P.length + 5, frame P⟩) := by
    have h := updateExpectedSize_frame_append P []
    rw [List.append_nil, hmod] at h
    exact h
  refine ⟨by simp [frame, hmodn], hupd, ?_⟩
  unfold receiveChunk
  simp only [List.nil_append]
  rw [hupd]
  show drainLoop ((frame P).length + 1) ⟨P.length + 5, frame P⟩
    = ([P], ⟨0, []⟩, false)
  have hd := drainLoop_frame ((frame P ++ []).length) P []
  rw [if_pos (by simp)] at hd
  rw [show frame P = frame P ++ [] from (List.append_nil _).symm]
  exact hd

/-- Witness for C1 at the concrete payload `[7, 8]`. -/
theorem framing_roundtrip_witness :
    (([7, 8] : List Nat).length < 2 ^ 32) ∧
    (frame [7, 8] = 0 :: (toBigEndian32 ([7, 8] : List Nat).length ++ [7, 8]) ∧
      (ExpectedData.mk 0 (frame [7, 8])).updateExpectedSize
        = (true, ⟨([7, 8] : List Nat).length + 5, frame [7, 8]⟩) ∧
      receiveChunk ⟨0, []⟩ (frame [7, 8]) = ([[7, 8]], ⟨0, []⟩, false)) :=
  ⟨by decide, framing_roundtrip [7, 8] (by decide)⟩

/-- Counterexample to C1 as stated (for every byte payload, without a size
bound): at the 2 ^ 32-byte payload the frame's length field wraps to zero,
so the computed `expectedSize` is 5, not `P.length + 5`. -/
theorem framing_roundtrip_as_stated_cex :
    ((ExpectedData.mk 0 (frame hugePayload)).updateExpectedSize).2.expectedSize
      ≠ hugePayload.length + 5 := by
  have hlen : hugePayload.length = 2 ^ 32 := List.length_replicate _ _
  have h := updateExpectedSize_frame_append hugePayload []
  rw [List.append_nil, hlen, Nat.mod_self] at h
  rw [h]
  show (0 + 5 : Nat) ≠ hugePayload.length + 5
  rw [hlen]
  norm_num

/-! ## C2 — multi-message reassembly -/

/-- Projections of the drain loop when the loop condition fails at entry:
nothing is emitted and the state is unchanged (for any fuel). -/
theorem drainLoop_guard_fail (f : Nat) (e : ExpectedData)
    (hgt : e.container.length < e.expectedSize) :
    (drainLoop f e).1 = [] ∧ (drainLoop f e).2.1 = e := by
  cases f with
  | zero => exact ⟨rfl, rfl⟩
  | succ g =>
    simp only [drainLoop]
    rw [if_neg (by omega)]
    exact ⟨rfl, rfl⟩

/-- Head of the drain loop's output when the loop condition holds at
entry: the payload slice after the 5-byte prefix. -/
theorem drainLoop_head (f : Nat) (e : ExpectedData)
    (hge : e.expectedSize ≤ e.container.length) :
    (drainLoop (f + 1) e).1.head?
      = some ((e.container.drop 5).take (e.expectedSize - 5)) := by
  simp only [drainLoop, GrpcMessageSizeHeaderSize]
  rw [if_pos hge]
  rcases hu : (ExpectedData.mk 0 (e.container.drop e.expectedSize)).updateExpectedSize
    with ⟨b, e2⟩
  cases b <;> simp [hu]

/-- The reassembler on one chunk carrying two full frames of in-range
payloads followed by a strict prefix of a third frame: the first and only
projections relevant to the handler — the message list and the final
state. -/
theorem receiveChunk_two_and_partial (A B C : List Nat) (n : Nat)
    (hA : A.length < 2 ^ 32) (hB : B.length < 2 ^ 32) (hC : C.length < 2 ^ 32)
    (hn : n < (frame C).length) :
    (receiveChunk ⟨0, []⟩ (frame A ++ (frame B ++ (frame C).take n))).1 = [A, B] ∧
    (receiveChunk ⟨0, []⟩ (frame A ++ (frame B ++ (frame C).take n))).2.1
      = ⟨if n < 5 then 0 else C.length + 5, (frame C).take n⟩ := by
  have hmodA : A.length % 2 ^ 32 = A.length := Nat.mod_eq_of_lt hA
  have hmodB : B.length % 2 ^ 32 = B.length := Nat.mod_eq_of_lt hB
  rw [frame_length] at hn
  have hpre_len : ((frame C).take n).length = n := by
    rw [List.length_take, frame_length]
    omega
  have hupd1 : (ExpectedData.mk 0
        (frame A ++ (frame B ++ (frame C).take n))).updateExpectedSize
      = (true, ⟨A.length + 5, frame A ++ (frame B ++ (frame C).take n)⟩) := by
    have h := updateExpectedSize_frame_append A (frame B ++ (frame C).take n)
    rw [hmodA] at h
    exact h
  have hupd2 : (ExpectedData.mk 0 (frame B ++ (frame C).take n)).updateExpectedSize
      = (true, ⟨B.length + 5, frame B ++ (frame C).take n⟩) := by
    have h := updateExpectedSize_frame_append B ((frame C).take n)
    rw [hmodB] at h
    exact h
  have hlen1 : (frame A ++ (frame B ++ (frame C).take n)).length
      = A.length + B.length + n + 10 := by
    rw [List.length_append, List.length_append, frame_length, frame_length,
      hpre_len]
    omega
  obtain ⟨f3, hf3⟩ : ∃ f3,
      (frame A ++ (frame B ++ (frame C).take n)).length = f3 + 1 :=
    ⟨A.length + B.length + n + 9, by omega⟩
  have hd1 := drainLoop_frame ((frame A ++ (frame B ++ (frame C).take n)).length)
    A (frame B ++ (frame C).take n)
  rw [if_neg (by rw [List.length_append, frame_length, hpre_len]; omega)] at hd1
  rw [hupd2] at hd1
  dsimp only at hd1
  rw [hf3] at hd1
  have hd2 := drainLoop_frame f3 B ((frame C).take n)
  by_cases hn5 : n < 5
  · rw [if_pos (by rw [hpre_len]; exact hn5)] at hd2
    rw [hd2] at hd1
    unfold receiveChunk
    simp only [List.nil_append]
    rw [hupd1]
    dsimp only
    rw [hf3, hd1, if_pos hn5]
    exact ⟨rfl, rfl⟩
  · rw [if_neg (by rw [hpre_len]; exact hn5)] at hd2
    have hupd3 : (ExpectedData.mk 0 ((frame C).take n)).updateExpectedSize
        = (true, ⟨C.length + 5, (frame C).take n⟩) := by
      obtain ⟨m, rfl⟩ : ∃ m, n = m + 5 := ⟨n - 5, by omega⟩
      have hfb : fromBigEndian32 (C.length % 2 ^ 32 / 16777216 % 256)
          (C.length % 2 ^ 32 / 65536 % 256) (C.length % 2 ^ 32 / 256 % 256)
          (C.length % 2 ^ 32 % 256) = C.length := by
        rw [fromBigEndian32_digits]
        have h32 : (2 : Nat) ^ 32 = 4294967296 := by norm_num
        have hCn := hC
        rw [h32] at hCn ⊢
        omega
      have hpe : (frame C).take (m + 5)
          = 0 :: C.length % 2 ^ 32 / 16777216 % 256
            :: C.length % 2 ^ 32 / 65536 % 256 :: C.length % 2 ^ 32 / 256 % 256
            :: C.length % 2 ^ 32 % 256 :: C.take m := by
        rw [frame_cons]
        rw [show m + 5 = m + 1 + 1 + 1 + 1 + 1 from rfl]
        simp [List.take_succ_cons]
      rw [hpe, updateExpectedSize_cons, hfb]
    rw [hupd3] at hd2
    dsimp only at hd2
    rw [hd2] at hd1
    have hfail := drainLoop_guard_fail f3 ⟨C.length + 5, (frame C).take n⟩
      (by show ((frame C).take n).length < C.length + 5; rw [hpre_len]; omega)
    unfold receiveChunk
    simp only [List.nil_append]
    rw [hupd1]
    dsimp only
    rw [hf3, hd1, if_neg hn5]
    dsimp only
    rw [hfail.1, hfail.2]
    exact ⟨rfl, rfl⟩

/-- C2 (amended with the `< 2 ^ 32` payload bounds that the 4-byte length
field forces): delivering `frame A ++ frame B ++` a strict prefix of
`frame C` in a single chunk to the data-received handler of an Active
handler with an empty reassembly buffer emits exactly the two messages `A`
then `B`, leaves the prefix bytes buffered with `expectedSize` recomputed
(`0` when fewer than 5 prefix bytes remain, `C.length + 5` otherwise); and
every drain-loop iteration entered with `container.size >= expectedSize`
emits exactly one message (the payload slice after the 5-byte prefix) and
drops the consumed prefix-plus-payload before continuing. -/
theorem multi_message_reassembly
    (h : Http2Handler) (A B C : List Nat) (n : Nat)
    (hstate : h.handlerState = HandlerState.Active)
    (hbuf : h.expectedData = ⟨0, []⟩)
    (hA : A.length < 2 ^ 32) (hB : B.length < 2 ^ 32) (hC : C.length < 2 ^ 32)
    (hn : n < (frame C).length) :
    (h.dataReceived (frame A ++ frame B ++ (frame C).take n) false).2
        = [Event.messageReceived A, Event.messageReceived B] ∧
    (h.dataReceived (frame A ++ frame B ++ (frame C).take n) false).1
        = { h with expectedData :=
              ⟨if n < 5 then 0 else C.length + 5, (frame C).take n⟩ } ∧
    (∀ (f : Nat) (e : ExpectedData), e.expectedSize ≤ e.container.length →
        (drainLoop (f + 1) e).1.head?
          = some ((e.container.drop 5).take (e.expectedSize - 5)) ∧
        (drainLoop (f + 1) e).1.length
          = 1 + (drainLoop f
              ((ExpectedData.mk 0
                (e.container.drop e.expectedSize)).updateExpectedSize.2)).1.length
            * (if ((ExpectedData.mk 0
                (e.container.drop e.expectedSize)).updateExpectedSize).1 then 1 else 0)) := by
  have hrc := receiveChunk_two_and_partial A B C n hA hB hC hn
  unfold Http2Handler.dataReceived
  rw [hstate, if_neg (by decide), hbuf]
  rw [List.append_assoc]
  refine ⟨?_, ?_, ?_⟩
  · simp only [Bool.and_false, Bool.false_eq_true, if_false]
    rw [hrc.1]
    rfl
  · simp only [Bool.and_false, Bool.false_eq_true, if_false]
    rw [hrc.2]
  · intro f e hge
    refine ⟨drainLoop_head f e hge, ?_⟩
    simp only [drainLoop, GrpcMessageSizeHeaderSize]
    rw [if_pos hge]
    rcases hu : (ExpectedData.mk 0 (e.container.drop e.expectedSize)).updateExpectedSize
      with ⟨b, e2⟩
    cases b <;> simp [hu, Nat.add_comm]

/-- Witness for C2 at `A = [1]`, `B = []`, `C = [2, 3]` and the 6-byte
strict prefix of the 7-byte `frame [2, 3]`. -/
theorem multi_message_reassembly_witness :
    freshHandler.handlerState = HandlerState.Active ∧
    freshHandler.expectedData = ⟨0, []⟩ ∧
    (6 : Nat) < (frame [2, 3]).length ∧
    ((freshHandler.dataReceived (frame [1] ++ frame [] ++ (frame [2, 3]).take 6)
          false).2
        = [Event.messageReceived [1], Event.messageReceived []] ∧
      (freshHandler.dataReceived (frame [1] ++ frame [] ++ (frame [2, 3]).take 6)
          false).1
        = { freshHandler with expectedData :=
              ⟨if 6 < 5 then 0 else ([2, 3] : List Nat).length + 5,
                (frame [2, 3]).take 6⟩ } ∧
      (∀ (f : Nat) (e : ExpectedData), e.expectedSize ≤ e.container.length →
          (drainLoop (f + 1) e).1.head?
            = some ((e.container.drop 5).take (e.expectedSize - 5)) ∧
          (drainLoop (f + 1) e).1.length
            = 1 + (drainLoop f
                ((ExpectedData.mk 0
                  (e.container.drop e.expectedSize)).updateExpectedSize.2)).1.length
              * (if ((ExpectedData.mk 0
                  (e.container.drop e.expectedSize)).updateExpectedSize).1 then 1
                else 0))) :=
  ⟨rfl, rfl, by decide,
    multi_message_reassembly freshHandler [1] [] [2, 3] 6 rfl rfl
      (by decide) (by decide) (by decide) (by decide)⟩

/-- Counterexample to C2 as stated (for all payloads, without size
bounds): with a first payload of 2 ^ 32 bytes, the truncated length
prefix makes the reassembler emit an empty first message instead of the
payload. -/
theorem multi_message_reassembly_as_stated_cex :
    (freshHandler.dataReceived (frame hugePayload ++ frame [] ++ (frame [0]).take 0)
        false).2
      ≠ [Event.messageReceived hugePayload, Event.messageReceived []] := by
  have hlen : hugePayload.length = 2 ^ 32 := List.length_replicate _ _
  have hhead : ∀ HP : List Nat, HP.length = 2 ^ 32 →
      (freshHandler.dataReceived (frame HP ++ frame [] ++ (frame [0]).take 0)
          false).2.head?
        = some (Event.messageReceived []) := by
    intro HP hHP
    have hchunk : frame HP ++ frame [] ++ (frame [0]).take 0
        = frame HP ++ frame [] := by
      rw [List.take_zero, List.append_nil]
    have hupd : (ExpectedData.mk 0 (frame HP ++ frame [])).updateExpectedSize
        = (true, ⟨0 + 5, frame HP ++ frame []⟩) := by
      have h := updateExpectedSize_frame_append HP (frame [])
      rw [hHP, Nat.mod_self] at h
      exact h
    have hclen : 0 + 5 ≤ (frame HP ++ frame []).length := by
      rw [List.length_append, frame_length, frame_length, hHP]
      omega
    unfold Http2Handler.dataReceived
    rw [hchunk]
    rw [show freshHandler.handlerState = HandlerState.Active from rfl,
      if_neg (by decide)]
    rw [show freshHandler.expectedData = ⟨0, []⟩ from rfl]
    unfold receiveChunk
    simp only [List.nil_append]
    rw [hupd]
    dsimp only
    simp only [Bool.and_false, Bool.false_eq_true, if_false]
    rw [List.head?_map, drainLoop_head ((frame HP ++ frame []).length) _ hclen]
    rw [show (0 + 5 - 5 : Nat) = 0 from rfl, List.take_zero]
    rfl
  intro hcontra
  have hh := hhead hugePayload hlen
  rw [hcontra] at hh
  have h1 : some (Event.messageReceived hugePayload)
      = some (Event.messageReceived []) := by
    rw [← hh]
    rfl
  have h2 : hugePayload = [] :=
    Event.messageReceived.inj (Option.some.inj h1)
  have h3 := congrArg List.length h2
  rw [hlen] at h3
  norm_num at h3

/-! ## C3 — exactly-one terminal finished event -/

/-- An operation whose `isFinished` flag is already set re-emits nothing,
whatever further context `finished` signals arrive. -/
theorem deliverAll_of_finished (op : GrpcOperation) (hop : op.isFinished = true)
    (sts : List StatusCode) : (op.deliverAll sts).2 = [] := by
  induction sts generalizing op with
  | nil => rfl
  | cons s rest ih =>
    unfold GrpcOperation.deliverAll GrpcOperation.onContextFinished
    rw [hop]
    simp only [if_true]
    rw [List.nil_append]
    exact ih op hop

/-- C3: for an operation object that is not discarded, the user-visible
`QGrpcOperation::finished` is emitted exactly once — the `isFinished`
guard re-emits only the first of any sequence of context `finished`
signals, so the emitted list is `events.take 1`: empty only when no
terminal context event arrives, a single terminal status otherwise, and
never a second emission however many times the context emits `finished`. -/
theorem finished_exactly_once (events : List StatusCode) :
    ((GrpcOperation.mk false).deliverAll events).2 = events.take 1 := by
  cases events with
  | nil => rfl
  | cons s rest =>
    unfold GrpcOperation.deliverAll GrpcOperation.onContextFinished
    simp only [if_neg (by decide : ¬(GrpcOperation.mk false).isFinished = true)]
    rw [deliverAll_of_finished ⟨true⟩ rfl rest]
    rfl

/-! ## C9 — handler partition invariant (violated by the code) -/

/-- C9 (code bug): when the HTTP/2 connection is established with one
pending handler whose operation has expired, `createHttp2Connection`
deletes the handler (`delete handler; continue`) but then appends the
whole unmodified `m_pendingHandlers` list — the deleted pointer included —
to `m_activeHandlers`.  The handler therefore ends up both deleted and in
the active list, violating the pending/active/deleted partition. -/
theorem expired_pending_handler_bug :
    (ChannelState.createHttp2Connection
        { connectionExists := false, connState := ConnState.Connecting,
          pending := [0], active := [], deleted := [] } (fun _ => true)).active
      = [0] ∧
    (ChannelState.createHttp2Connection
        { connectionExists := false, connState := ConnState.Connecting,
          pending := [0], active := [], deleted := [] } (fun _ => true)).deleted
      = [0] := by
  exact ⟨rfl, rfl⟩

/-! ## C10 — the HTTP/2-error-to-status mapping never reports Ok -/

/-- The mapping returns a non-Ok status for every error code. -/
theorem http2ErrorToStatusCode_ne_ok (c : Nat) :
    http2ErrorToStatusCode c ≠ StatusCode.Ok := by
  unfold http2ErrorToStatusCode
  repeat' split
  all_goals decide

/-- C10: `HTTP2_NO_ERROR` (0x0) maps to `Internal`, not `Ok`; no HTTP/2
error code maps to `Ok`; hence the stream-error path never finishes an
RPC with `Ok`. -/
theorem http2_error_never_ok :
    http2ErrorToStatusCode HTTP2_NO_ERROR = StatusCode.Internal ∧
    (∀ c : Nat, http2ErrorToStatusCode c ≠ StatusCode.Ok) ∧
    (∀ (c : Nat) (ex : Bool),
        Event.finished StatusCode.Ok ∉ streamErrorOccurred ex c) := by
  refine ⟨by decide, http2ErrorToStatusCode_ne_ok, ?_⟩
  intro c ex
  unfold streamErrorOccurred
  split
  · simp
  · intro hmem
    rw [List.mem_singleton] at hmem
    exact http2ErrorToStatusCode_ne_ok c (Event.finished.inj hmem).symm

/-! ## C6 — cancellation state machine -/

/-- `processQueue` never changes the handler state. -/
theorem processQueue_handlerState (h : Http2Handler) :
    h.processQueue.1.handlerState = h.handlerState := by
  unfold Http2Handler.processQueue
  cases hs : h.stream
  · rfl
  · dsimp only
    split
    · rfl
    · split <;> rfl

/-- `writeMessage` never changes the handler state. -/
theorem writeMessage_handlerState (h : Http2Handler) (d : List Nat) :
    (h.writeMessage d).1.handlerState = h.handlerState := by
  unfold Http2Handler.writeMessage
  split
  · rfl
  · rw [processQueue_handlerState]

/-- C6: `cancel()` on a handler that is not Active or has no attached
stream returns failure, changes nothing and sends no frame; on an Active
handler with a stream it transitions to the terminal Cancelled state,
stops the deadline timer, sends `RST_STREAM(CANCEL)` and returns exactly
the success of that send; and no operation of the handler ever leaves the
terminal Cancelled or Finished states. -/
theorem cancel_state_machine
    (h : Http2Handler) (ok : Bool) (d : List Nat) (es expired : Bool) :
    (h.handlerState ≠ HandlerState.Active ∨ h.stream = none →
        h.cancel ok = (false, h, [])) ∧
    (h.handlerState = HandlerState.Active → h.stream ≠ none →
        h.cancel ok
          = (ok, { h with
                    handlerState := HandlerState.Cancelled
                    deadlineTimerActive := false },
              [Frame.rstStream CANCEL])) ∧
    (h.handlerState = HandlerState.Cancelled ∨ h.handlerState = HandlerState.Finished →
        (h.cancel ok).2.1.handlerState = h.handlerState ∧
        h.writesDone.1.handlerState = h.handlerState ∧
        (h.writeMessage d).1.handlerState = h.handlerState ∧
        (h.dataReceived d es).1.handlerState = h.handlerState ∧
        (h.deadlineTimeout expired ok).1.handlerState = h.handlerState ∧
        h.processQueue.1.handlerState = h.handlerState) := by
  refine ⟨?_, ?_, ?_⟩
  · intro hcond
    unfold Http2Handler.cancel
    rw [if_pos hcond]
  · intro hA hs
    unfold Http2Handler.cancel
    rw [if_neg (fun hc => hc.elim (fun hne => hne hA) hs)]
  · intro hterm
    have hne : h.handlerState ≠ HandlerState.Active := by
      intro hx
      rcases hterm with hc | hf
      · rw [hc] at hx
        exact HandlerState.noConfusion hx
      · rw [hf] at hx
        exact HandlerState.noConfusion hx
    have hcnop : h.cancel ok = (false, h, []) := by
      unfold Http2Handler.cancel
      rw [if_pos (Or.inl hne)]
    refine ⟨by rw [hcnop], ?_, writeMessage_handlerState h d, ?_, ?_,
      processQueue_handlerState h⟩
    · unfold Http2Handler.writesDone
      rw [if_pos hne]
    · unfold Http2Handler.dataReceived
      rcases hterm with hc | hf
      · rw [if_pos hc]
      · rw [if_neg (by rw [hf]; exact fun hx => HandlerState.noConfusion hx)]
        dsimp only
        split
        · exact hf.symm
        · rfl
    · unfold Http2Handler.deadlineTimeout
      split
      · rfl
      · rw [hcnop]
        rfl

/-- Witness for C6: cancelling an Active handler with an attached open
stream (send result `true`). -/
theorem cancel_state_machine_witness :
    handlerActive.handlerState = HandlerState.Active ∧
    handlerActive.stream ≠ none ∧
    handlerActive.cancel true
      = (true, { handlerActive with
            handlerState := HandlerState.Cancelled
            deadlineTimerActive := false },
          [Frame.rstStream CANCEL]) :=
  ⟨rfl, by decide,
    (cancel_state_machine handlerActive true [] false false).2.1 rfl (by decide)⟩

/-! ## C7 — half-close via writesDone -/

/-- `processQueue` never asks the stream for a reset frame. -/
theorem processQueue_no_rst (g : Http2Handler) (c : Nat) :
    Frame.rstStream c ∉ g.processQueue.2 := by
  unfold Http2Handler.processQueue
  cases hs : g.stream
  · simp
  · dsimp only
    split
    · simp
    · split
      · simp
      · simp

/-- C7 (amended): `writesDone()` on a non-Active handler changes nothing;
on an Active handler it transitions to Finished and never resets the
stream; when the send side is already half-closed or closed nothing is
enqueued or sent; otherwise exactly one empty message is enqueued and the
queue drained — when the handler's stream is attached, open for sending,
not mid-upload and the queue is otherwise empty, that empty message is
immediately sent as a DATA frame carrying the end-of-stream flag (with a
backlog or no attached stream it stays queued). -/
theorem writesDone_half_close (h : Http2Handler) (s : Http2Stream)
    (hA : h.handlerState = HandlerState.Active) :
    (∀ g : Http2Handler, g.handlerState ≠ HandlerState.Active →
        g.writesDone = (g, [])) ∧
    (h.writesDone).1.handlerState = HandlerState.Finished ∧
    (∀ c, Frame.rstStream c ∉ (h.writesDone).2) ∧
    (h.isStreamClosedForSending = true →
        h.writesDone = ({ h with handlerState := HandlerState.Finished }, [])) ∧
    (h.stream = some s → s.state ≠ StreamState.HalfClosedLocal →
      s.state ≠ StreamState.Closed → s.uploadingDATA = false → h.queue = [] →
        h.writesDone
          = ({ h with
                handlerState := HandlerState.Finished
                queue := []
                stream := some { s with uploadingDATA := true } },
              [Frame.data [] true])) := by
  refine ⟨?_, ?_, ?_, ?_, ?_⟩
  · intro g hg
    unfold Http2Handler.writesDone
    rw [if_pos hg]
  · unfold Http2Handler.writesDone
    rw [if_neg (fun hx => hx hA)]
    dsimp only
    split
    · rfl
    · rw [processQueue_handlerState]
  · intro c
    unfold Http2Handler.writesDone
    rw [if_neg (fun hx => hx hA)]
    dsimp only
    split
    · simp
    · exact processQueue_no_rst _ c
  · intro hclosed
    unfold Http2Handler.writesDone
    rw [if_neg (fun hx => hx hA)]
    dsimp only
    split
    · rfl
    · rename_i hnc
      exact absurd hclosed hnc
  · intro hs hshcl hscl hup hq
    obtain ⟨hst, str, q, ed, dt, esf⟩ := h
    obtain ⟨sst, sup⟩ := s
    dsimp only at hA hs hq
    dsimp only at hup
    subst hA hs hq hup
    unfold Http2Handler.writesDone Http2Handler.isStreamClosedForSending
      Http2Handler.processQueue
    cases sst
    · rfl
    · rfl
    · exact absurd rfl hshcl
    · rfl
    · exact absurd rfl hscl

/-- Witness for C7: half-close of an Active handler with an open stream
and empty queue sends exactly one empty end-of-stream DATA frame. -/
theorem writesDone_half_close_witness :
    handlerActive.handlerState = HandlerState.Active ∧
    handlerActive.stream = some streamOpen ∧
    handlerActive.writesDone
      = ({ handlerActive with
            handlerState := HandlerState.Finished
            queue := []
            stream := some { streamOpen with uploadingDATA := true } },
          [Frame.data [] true]) :=
  ⟨rfl, rfl,
    (writesDone_half_close handlerActive streamOpen rfl).2.2.2.2 rfl (by decide)
      (by decide) rfl rfl⟩

/-- Counterexample to C7 as stated: on an Active handler with an open send
side but one already-queued message, `writesDone()` enqueues the empty
message but the immediate queue drain sends the backlog message (without
the end-of-stream flag), not the empty end-of-stream frame. -/
theorem writesDone_half_close_as_stated_cex :
    (handlerBacklog.writesDone).2 ≠ [Frame.data [] true] := by
  decide

/-! ## C8 — deadline resolution and timeout behaviour -/

/-- C8: the deadline is the call-level one if set, else the channel-level
one if set, else none; the timer is armed exactly when a deadline
resolved; a timeout with an expired operation only logs; otherwise
`cancel()` is attempted — on success the operation finishes with
`DeadlineExceeded`, on a failed reset send or a no-op cancel nothing is
reported by the deadline path. -/
theorem deadline_behaviour
    (callD chanD : Option Nat) (h : Http2Handler) (ok : Bool) (d : Nat) :
    resolveDeadline (some d) chanD = some d ∧
    resolveDeadline none chanD = chanD ∧
    deadlineTimerStarted callD chanD = (resolveDeadline callD chanD).isSome ∧
    h.deadlineTimeout true ok = (h, [], []) ∧
    (h.handlerState = HandlerState.Active → h.stream ≠ none →
        h.deadlineTimeout false ok
          = ({ h with
                handlerState := HandlerState.Cancelled
                deadlineTimerActive := false },
              [Frame.rstStream CANCEL],
              if ok then [Event.finished StatusCode.DeadlineExceeded] else [])) ∧
    (¬(h.handlerState = HandlerState.Active ∧ h.stream ≠ none) →
        h.deadlineTimeout false ok = (h, [], [])) := by
  refine ⟨rfl, ?_, rfl, rfl, ?_, ?_⟩
  · unfold resolveDeadline
    cases chanD <;> rfl
  · intro hA hs
    unfold Http2Handler.deadlineTimeout
    rw [if_neg (by decide)]
    have hc : h.cancel ok
        = (ok, { h with
              handlerState := HandlerState.Cancelled
              deadlineTimerActive := false },
            [Frame.rstStream CANCEL]) := by
      unfold Http2Handler.cancel
      rw [if_neg (fun hcon => hcon.elim (fun hne => hne hA) hs)]
    rw [hc]
    cases ok <;> rfl
  · intro hcon
    unfold Http2Handler.deadlineTimeout
    rw [if_neg (by decide)]
    have hguard : h.handlerState ≠ HandlerState.Active ∨ h.stream = none := by
      by_cases hA : h.handlerState = HandlerState.Active
      · right
        by_cases hs : h.stream = none
        · exact hs
        · exact absurd ⟨hA, hs⟩ hcon
      · exact Or.inl hA
    have hc : h.cancel ok = (false, h, []) := by
      unfold Http2Handler.cancel
      rw [if_pos hguard]
    rw [hc]
    rfl

/-- Witness for C8: call deadline 3 overrides channel deadline 7; timeout
on an Active attached handler with a successful reset reports
`DeadlineExceeded`. -/
theorem deadline_behaviour_witness :
    handlerActive.handlerState = HandlerState.Active ∧
    handlerActive.stream ≠ none ∧
    resolveDeadline (some 3) (some 7) = some 3 ∧
    resolveDeadline none (some 7) = some 7 ∧
    handlerActive.deadlineTimeout true true = (handlerActive, [], []) ∧
    handlerActive.deadlineTimeout false true
      = ({ handlerActive with
            handlerState := HandlerState.Cancelled
            deadlineTimerActive := false },
          [Frame.rstStream CANCEL],
          if true then [Event.finished StatusCode.DeadlineExceeded] else []) :=
  ⟨rfl, by decide,
    (deadline_behaviour (some 3) (some 7) handlerActive true 3).1,
    (deadline_behaviour none (some 7) handlerActive true 7).2.1,
    (deadline_behaviour (some 3) (some 7) handlerActive true 3).2.2.2.1,
    (deadline_behaviour (some 3) (some 7) handlerActive true 3).2.2.2.2.1 rfl
      (by decide)⟩

/-! ## C5 — content-type negotiation at channel construction -/

/-- C5 (amended): an explicitly configured non-default serialization
format wins over a disagreeing metadata `content-type` with a warning, and
the resolved content type is `application/grpc+<suffix>`; with no
configured format, metadata `application/grpc+json` infers JSON,
`application/grpc+proto` infers Protobuf, a metadata value equal to the
plain default leaves the default format unchanged without warning (the
code's `value == DefaultContentType` alternative is unreachable under its
enclosing `value != DefaultContentType` guard), and any other value warns
and falls back to the default format. -/
theorem content_type_negotiation
    (fmt : SerializationFormat) (v : String)
    (hfmt : fmt.suffix ≠ "")
    (hv : v ≠ DefaultContentType ++ "+" ++ fmt.suffix) :
    channelContentTypeInit fmt (some v)
      = ⟨fmt, DefaultContentType ++ "+" ++ fmt.suffix, true, false⟩ ∧
    channelContentTypeInit SerializationFormat.Default
        (some "application/grpc+json")
      = ⟨SerializationFormat.Json, "application/grpc+json", false, false⟩ ∧
    channelContentTypeInit SerializationFormat.Default
        (some "application/grpc+proto")
      = ⟨SerializationFormat.Protobuf, "application/grpc+proto", false, false⟩ ∧
    channelContentTypeInit SerializationFormat.Default (some "application/grpc")
      = ⟨SerializationFormat.Default, "application/grpc", false, false⟩ ∧
    (∀ w : String, w ≠ "application/grpc+json" → w ≠ "application/grpc+proto" →
      w ≠ "application/grpc" →
      channelContentTypeInit SerializationFormat.Default (some w)
        = ⟨SerializationFormat.Default, "application/grpc", false, true⟩) := by
  refine ⟨?_, by decide, by decide, by decide, ?_⟩
  · cases fmt
    · exact absurd rfl hfmt
    · have hv2 : v ≠ "application/grpc+proto" :=
        fun hx => hv (hx.trans (by decide))
      simp [channelContentTypeInit, SerializationFormat.suffix,
        DefaultContentType, hv2]
    · have hv2 : v ≠ "application/grpc+json" :=
        fun hx => hv (hx.trans (by decide))
      simp [channelContentTypeInit, SerializationFormat.suffix,
        DefaultContentType, hv2]
  · intro w hw1 hw2 hw3
    unfold channelContentTypeInit
    dsimp only
    rw [if_pos ⟨rfl, hw3⟩, if_neg hw1, if_neg (fun hor => hor.elim hw2 hw3)]
    rfl


/-- Witness for C5: a channel configured with the JSON format and metadata
`content-type: application/grpc+proto` warns and resolves to
`application/grpc+json`. -/
theorem content_type_negotiation_witness :
    (SerializationFormat.Json.suffix ≠ "" ∧
      "application/grpc+proto" ≠ DefaultContentType ++ "+"
        ++ SerializationFormat.Json.suffix) ∧
    channelContentTypeInit SerializationFormat.Json (some "application/grpc+proto")
      = ⟨SerializationFormat.Json,
          DefaultContentType ++ "+" ++ SerializationFormat.Json.suffix,
          true, false⟩ :=
  ⟨⟨by decide, by decide⟩,
    (content_type_negotiation SerializationFormat.Json "application/grpc+proto"
      (by decide) (by decide)).1⟩

/-- Counterexample to C5 as stated: with no configured format and metadata
`content-type: application/grpc` (the no-suffix value), the code leaves
the default serialization format in place — the format is not inferred as
the Protobuf format (whose suffix is `proto`), contrary to the claim's
`+proto or no suffix → Protobuf`. -/
theorem content_type_negotiation_as_stated_cex :
    (channelContentTypeInit SerializationFormat.Default
        (some "application/grpc")).format ≠ SerializationFormat.Protobuf := by
  decide


/-! ## C4 — initial-header metadata merge -/

/-- ASCII lower-casing of a byte is idempotent. -/
theorem asciiLowerByte_idem (b : Nat) :
    asciiLowerByte (asciiLowerByte b) = asciiLowerByte b := by
  unfold asciiLowerByte
  by_cases hb : 65 ≤ b ∧ b ≤ 90
  · rw [if_pos hb, if_neg (by omega)]
  · rw [if_neg hb, if_neg hb]

/-- ASCII lower-casing of a byte string is idempotent. -/
theorem asciiLower_idem (l : List Nat) :
    asciiLower (asciiLower l) = asciiLower l := by
  unfold asciiLower
  rw [List.map_map]
  exact List.map_congr_left fun b _ => asciiLowerByte_idem b

/-- Every header pair produced by the metadata iteration has a lower-cased
key that is none of the channel-controlled keys. -/
theorem metaEntries_props (m : List (List Nat × List Nat))
    (p : List Nat × List Nat) (hp : p ∈ metaEntries m) :
    asciiLower p.1 = p.1 ∧ p.1 ≠ bytes ":authority" ∧ p.1 ≠ bytes ":method"
      ∧ p.1 ≠ bytes ":path" ∧ p.1 ≠ bytes ":scheme"
      ∧ p.1 ≠ bytes "content-type" := by
  unfold metaEntries at hp
  rw [List.mem_filterMap] at hp
  obtain ⟨kv, hkv, heq⟩ := hp
  dsimp only at heq
  by_cases hskip : asciiLower kv.1 = bytes ":authority"
      ∨ asciiLower kv.1 = bytes ":method" ∨ asciiLower kv.1 = bytes ":path"
      ∨ asciiLower kv.1 = bytes ":scheme" ∨ asciiLower kv.1 = bytes "content-type"
  · rw [if_pos hskip] at heq
    exact absurd heq (by simp)
  · rw [if_neg hskip] at heq
    have hp1 : p.1 = asciiLower kv.1 := by
      rw [← Option.some.inj heq]
    push_neg at hskip
    rw [hp1]
    exact ⟨asciiLower_idem kv.1, hskip.1, hskip.2.1, hskip.2.2.1,
      hskip.2.2.2.1, hskip.2.2.2.2⟩

/-- C4: in the merged initial headers the base headers come first, then
the channel metadata entries, then the call metadata entries; for any key
whose last call-metadata entry carries value `v`, the last merged-header
entry for that key also carries `v` (the call level wins under the
last-entry-wins reading of the header list); every metadata-derived entry
has a lower-cased key, and none of them is a pseudo-header or
`content-type` (those are skipped). -/
theorem initial_header_merge
    (authority scheme contentType service method : List Nat)
    (channelMeta callMeta : List (List Nat × List Nat))
    (key v : List Nat)
    (hcall : lookupLast (metaEntries callMeta) key = some v) :
    lookupLast (initialHeaders authority scheme contentType service method
        channelMeta callMeta) key = some v ∧
    initialHeaders authority scheme contentType service method channelMeta
        callMeta
      = [(bytes ":authority", authority),
          (bytes ":method", bytes "POST"),
          (bytes ":path", bytes "/" ++ service ++ bytes "/" ++ method),
          (bytes ":scheme", scheme),
          (bytes "content-type", contentType),
          (bytes "service-name", service),
          (bytes "grpc-accept-encoding", bytes "identity,deflate,gzip"),
          (bytes "accept-encoding", bytes "identity,gzip"),
          (bytes "te", bytes "trailers")]
        ++ metaEntries channelMeta ++ metaEntries callMeta ∧
    ∀ p ∈ metaEntries channelMeta ++ metaEntries callMeta,
      asciiLower p.1 = p.1 ∧ p.1 ≠ bytes ":authority" ∧ p.1 ≠ bytes ":method"
        ∧ p.1 ≠ bytes ":path" ∧ p.1 ≠ bytes ":scheme"
        ∧ p.1 ≠ bytes "content-type" := by
  refine ⟨?_, rfl, ?_⟩
  · unfold lookupLast at hcall ⊢
    obtain ⟨pr, hfind, hv2⟩ : ∃ pr,
        ((metaEntries callMeta).reverse.find? fun p => p.1 == key) = some pr
          ∧ pr.2 = v := by
      rcases hf : (metaEntries callMeta).reverse.find? fun p => p.1 == key
        with _ | pr
      · rw [hf] at hcall
        exact absurd hcall (by simp)
      · rw [hf] at hcall
        exact ⟨pr, hf, Option.some.inj hcall⟩
    unfold initialHeaders
    rw [List.reverse_append]
    simp [List.find?_append, hfind, hv2]
  · intro p hp
    rw [List.mem_append] at hp
    rcases hp with hp | hp
    · exact metaEntries_props channelMeta p hp
    · exact metaEntries_props callMeta p hp


/-- Witness for C4: with channel metadata `{x: 1, content-type: foo}` and
call metadata `{x: 2}` the merged headers resolve `x` to `2` and add no
`content-type` beyond the channel-controlled one. -/
theorem initial_header_merge_witness :
    lookupLast (metaEntries c4CallMeta) (bytes "x") = some (bytes "2") ∧
    (lookupLast (initialHeaders (bytes "localhost") (bytes "http")
        (bytes "application/grpc") (bytes "Svc") (bytes "Call") c4ChannelMeta
        c4CallMeta) (bytes "x") = some (bytes "2") ∧
      initialHeaders (bytes "localhost") (bytes "http")
          (bytes "application/grpc") (bytes "Svc") (bytes "Call") c4ChannelMeta
          c4CallMeta
        = [(bytes ":authority", bytes "localhost"),
            (bytes ":method", bytes "POST"),
            (bytes ":path", bytes "/" ++ bytes "Svc" ++ bytes "/" ++ bytes "Call"),
            (bytes ":scheme", bytes "http"),
            (bytes "content-type", bytes "application/grpc"),
            (bytes "service-name", bytes "Svc"),
            (bytes "grpc-accept-encoding", bytes "identity,deflate,gzip"),
            (bytes "accept-encoding", bytes "identity,gzip"),
            (bytes "te", bytes "trailers")]
          ++ metaEntries c4ChannelMeta ++ metaEntries c4CallMeta ∧
      ∀ p ∈ metaEntries c4ChannelMeta ++ metaEntries c4CallMeta,
        asciiLower p.1 = p.1 ∧ p.1 ≠ bytes ":authority" ∧ p.1 ≠ bytes ":method"
          ∧ p.1 ≠ bytes ":path" ∧ p.1 ≠ bytes ":scheme"
          ∧ p.1 ≠ bytes "content-type") :=
  ⟨by decide,
    initial_header_merge (bytes "localhost") (bytes "http")
      (bytes "application/grpc") (bytes "Svc") (bytes "Call") c4ChannelMeta
      c4CallMeta (bytes "x") (bytes "2") (by decide)⟩

end QtGrpcHttp2
